import Mathlib

/-!
Shallow embedding of `drivers/block/vbswap/vbswap.c` (vbswap virtual block
swap device) and proofs of its specification properties.

Modelling conventions:
* A memory page's contents is a `List Nat` of byte values; a real page has
  length `PAGE_SIZE`.
* The single piece of mutable device state is the global
  `swap_header_page` pointer, modelled as `Option Page`
  (`none` = NULL pointer = header state Empty,
   `some h` = the retained page holds bytes `h` = header state Holding).
* `kmap_atomic`/`kunmap_atomic`/`flush_dcache_page` are mapping
  bookkeeping with no effect on byte contents; they are not modelled.
* `alloc_page` can fail (return NULL); the model takes a boolean
  `allocOk` saying whether the (at most one) allocation in a request
  succeeds.  The C code does not check the result of `alloc_page`; when
  the allocation fails it passes NULL to `kmap_atomic`/`memcpy`, which is
  a NULL-pointer dereference.  The model makes that outcome explicit as
  the result `ReqResult.crash`.
* A `bio` carries its start sector, total byte size, segment-vector count
  `bi_vcnt` and the list of segments (`bio_vec`s); a well-formed bio has
  `bi_vcnt = segments.length`.
* `current->flags & PF_KTHREAD` (the caller-origin test) is modelled as a
  boolean `pf_kthread` input.
* Functions return their `int` result as `Int` (0 = success,
  `-EIO` = I/O error) together with the updated buffers and header state.
-/

namespace Vbswap

/-- A page's byte contents. -/
abbrev Page := List Nat

/-- `#define SECTOR_SHIFT 9` -/
def SECTOR_SHIFT : Nat := 9

/-- `#define SECTOR_SIZE (1 << SECTOR_SHIFT)` -/
def SECTOR_SIZE : Nat := 1 <<< SECTOR_SHIFT

/-- `PAGE_SHIFT` of the target kernel configuration: 12 (4 KiB pages). -/
def PAGE_SHIFT : Nat := 12

/-- `PAGE_SIZE = 1 << PAGE_SHIFT` -/
def PAGE_SIZE : Nat := 1 <<< PAGE_SHIFT

/-- `#define SECTORS_PER_PAGE_SHIFT (PAGE_SHIFT - SECTOR_SHIFT)` -/
def SECTORS_PER_PAGE_SHIFT : Nat := PAGE_SHIFT - SECTOR_SHIFT

/-- `#define SECTORS_PER_PAGE (1 << SECTORS_PER_PAGE_SHIFT)` -/
def SECTORS_PER_PAGE : Nat := 1 <<< SECTORS_PER_PAGE_SHIFT

/-- `#define VBSWAP_LOGICAL_BLOCK_SHIFT 12` -/
def VBSWAP_LOGICAL_BLOCK_SHIFT : Nat := 12

/-- `#define VBSWAP_LOGICAL_BLOCK_SIZE (1 << VBSWAP_LOGICAL_BLOCK_SHIFT)` -/
def VBSWAP_LOGICAL_BLOCK_SIZE : Nat := 1 <<< VBSWAP_LOGICAL_BLOCK_SHIFT

/-- `#define VBSWAP_SECTOR_PER_LOGICAL_BLOCK
      (1 << (VBSWAP_LOGICAL_BLOCK_SHIFT - SECTOR_SHIFT))` -/
def VBSWAP_SECTOR_PER_LOGICAL_BLOCK : Nat :=
  1 <<< (VBSWAP_LOGICAL_BLOCK_SHIFT - SECTOR_SHIFT)

/-- `SZ_1G` -/
def SZ_1G : Nat := 1024 * 1024 * 1024

/-- Kernel `PAGE_ALIGN(x) = (x + PAGE_SIZE - 1) & PAGE_MASK`:
round up to a multiple of the page size. -/
def PAGE_ALIGN (x : Nat) : Nat :=
  ((x + PAGE_SIZE - 1) >>> PAGE_SHIFT) <<< PAGE_SHIFT

/-- `static const u64 vbswap_disksize = PAGE_ALIGN((u64)SZ_1G * 6);` -/
def vbswap_disksize : Nat := PAGE_ALIGN (SZ_1G * 6)

/-- `EIO` errno. -/
def EIO : Int := 5

/-- A `struct bio_vec`: backing page contents, length and intra-page
byte offset of the segment. -/
structure Bvec where
  bv_page : Page
  bv_len : Nat
  bv_offset : Nat
deriving DecidableEq, Repr

/-- Request direction (`bio_data_dir`): READ or WRITE. -/
inductive RW where
  | read
  | write
deriving DecidableEq, Repr

/-- The fields of `struct bio` the driver inspects: start sector
`bi_iter.bi_sector`, total byte count `bi_iter.bi_size`, segment count
`bi_vcnt`, the segment vector, and the data direction. -/
structure Bio where
  bi_sector : Nat
  bi_size : Nat
  bi_vcnt : Nat
  segments : List Bvec
  dir : RW
deriving DecidableEq, Repr

/-- A bio is well-formed when its segment count matches its segment
vector. -/
def Bio.wf (bio : Bio) : Prop := bio.bi_vcnt = bio.segments.length

/-- Overall outcome of a request: completed with `BLK_STS_OK`, failed
via `bio_io_error`, or crashed (NULL-pointer dereference in the driver). -/
inductive ReqResult where
  | ok
  | ioError
  | crash
deriving DecidableEq, Repr

/-- Overwrite `src.length` bytes of `dst` starting at byte `off`
(the effect of `memcpy(dst + off, src, src.length)` when
`off + src.length ≤ dst.length`). -/
def writeBytes (dst : Page) (off : Nat) (src : Page) : Page :=
  dst.take off ++ src ++ dst.drop (off + src.length)

/-- `vbswap_valid_io_request`: the request is rejected (returns 0,
modelled `false`) iff the start sector is at/after the capacity in
sectors, or the start sector is not aligned on
`VBSWAP_SECTOR_PER_LOGICAL_BLOCK`, or the byte size is not a multiple of
`VBSWAP_LOGICAL_BLOCK_SIZE`. -/
def vbswap_valid_io_request (bio : Bio) : Bool :=
  if bio.bi_sector ≥ vbswap_disksize >>> SECTOR_SHIFT
      ∨ bio.bi_sector &&& (VBSWAP_SECTOR_PER_LOGICAL_BLOCK - 1) ≠ 0
      ∨ bio.bi_size &&& (VBSWAP_LOGICAL_BLOCK_SIZE - 1) ≠ 0 then
    false
  else
    true

/-- `vbswap_bvec_read`: result code, updated contents of the bvec's
page, and updated `swap_header_page`.  If `index == 0` and the header
page is retained, its first `bv_len` bytes are copied into the
destination at `bv_offset` and the header page is freed; otherwise the
destination range is zero-filled (`memset`).  Always returns 0. -/
def vbswap_bvec_read (bvec : Bvec) (index : Nat) (hdr : Option Page) :
    Int × Page × Option Page :=
  match hdr with
  | some h =>
    if index = 0 then
      (0, writeBytes bvec.bv_page bvec.bv_offset (h.take bvec.bv_len), none)
    else
      (0, writeBytes bvec.bv_page bvec.bv_offset (List.replicate bvec.bv_len 0),
        some h)
  | none =>
    (0, writeBytes bvec.bv_page bvec.bv_offset (List.replicate bvec.bv_len 0),
      none)

/-- `alloc_page`: a fresh page on success (contents irrelevant, the
caller immediately overwrites all of it; the model uses zeros), NULL on
failure. -/
def alloc_page (allocOk : Bool) : Option Page :=
  if allocOk then some (List.replicate PAGE_SIZE 0) else none

/-- `vbswap_bvec_write`: for `index ≠ 0` returns `-EIO` leaving the
header untouched.  For index 0 it allocates the header page when absent
— without checking the allocation result — and then copies `PAGE_SIZE`
bytes from the start of the bvec's page into it.  `none` models the
NULL-pointer dereference that the C code performs when `alloc_page`
failed (`kmap_atomic(NULL)` / `memcpy` through NULL). -/
def vbswap_bvec_write (bvec : Bvec) (index : Nat) (allocOk : Bool)
    (hdr : Option Page) : Option (Int × Option Page) :=
  if index ≠ 0 then
    some (- EIO, hdr)
  else
    match (match hdr with
           | none => alloc_page allocOk
           | some h => some h : Option Page) with
    | none => none
    | some _ => some (0, some (bvec.bv_page.take PAGE_SIZE))

/-- `vbswap_bvec_rw`: dispatch on direction.  A write leaves the bvec's
page unchanged. -/
def vbswap_bvec_rw (bvec : Bvec) (index : Nat) (rw : RW) (allocOk : Bool)
    (hdr : Option Page) : Option (Int × Page × Option Page) :=
  match rw with
  | .read => some (vbswap_bvec_read bvec index hdr)
  | .write =>
    match vbswap_bvec_write bvec index allocOk hdr with
    | none => none
    | some (ret, hdr') => some (ret, bvec.bv_page, hdr')

/-- The `bio_for_each_segment` loop of `__vbswap_make_request`: per
segment, reject a bvec whose length is not `PAGE_SIZE` or whose offset
is nonzero, run the page operation, fail the whole bio on a negative
result, and increment the page index.  Returns the outcome, the updated
contents of every segment's page, and the updated header state. -/
def runSegments (rw : RW) (allocOk : Bool) :
    List Bvec → Nat → Option Page → ReqResult × List Page × Option Page
  | [], _, hdr => (.ok, [], hdr)
  | bvec :: rest, index, hdr =>
    if bvec.bv_len ≠ PAGE_SIZE ∨ bvec.bv_offset ≠ 0 then
      (.ioError, bvec.bv_page :: rest.map Bvec.bv_page, hdr)
    else
      match vbswap_bvec_rw bvec index rw allocOk hdr with
      | none => (.crash, bvec.bv_page :: rest.map Bvec.bv_page, hdr)
      | some (ret, p, hdr') =>
        if ret < 0 then
          (.ioError, p :: rest.map Bvec.bv_page, hdr')
        else
          match runSegments rw allocOk rest (index + 1) hdr' with
          | (res, ps, hdr2) => (res, p :: ps, hdr2)

/-- `__vbswap_make_request`: validate bounds/alignment, compute page
index and intra-page offset from the start sector, reject a nonzero
offset, a size above one page, or more than one segment, then run the
per-segment loop. -/
def __vbswap_make_request (bio : Bio) (rw : RW) (allocOk : Bool)
    (hdr : Option Page) : ReqResult × List Page × Option Page :=
  if vbswap_valid_io_request bio = false then
    (.ioError, bio.segments.map Bvec.bv_page, hdr)
  else
    let index := bio.bi_sector >>> SECTORS_PER_PAGE_SHIFT
    let offset := (bio.bi_sector &&& (SECTORS_PER_PAGE - 1)) <<< SECTOR_SHIFT
    if offset ≠ 0 then
      (.ioError, bio.segments.map Bvec.bv_page, hdr)
    else if bio.bi_size > PAGE_SIZE then
      (.ioError, bio.segments.map Bvec.bv_page, hdr)
    else if bio.bi_vcnt > 1 then
      (.ioError, bio.segments.map Bvec.bv_page, hdr)
    else
      runSegments rw allocOk bio.segments index hdr

/-- `vbswap_make_request`: the origin gate.  If the caller has
`PF_KTHREAD` set (the kernel's paging context) the bio fails immediately
with an I/O error and nothing else runs; otherwise the request is handed
to `__vbswap_make_request` with its data direction. -/
def vbswap_make_request (pf_kthread : Bool) (bio : Bio) (allocOk : Bool)
    (hdr : Option Page) : ReqResult × List Page × Option Page :=
  if pf_kthread then
    (.ioError, bio.segments.map Bvec.bv_page, hdr)
  else
    __vbswap_make_request bio bio.dir allocOk hdr

/-- `disksize_show`: prints `vbswap_disksize`; the model returns the
value written to the buffer. -/
def disksize_show : Nat := vbswap_disksize

/-- `disksize_store`: consumes the whole input (`return len`) and
touches no device state; the model threads the header state through
unchanged. -/
def disksize_store (_buf : List Nat) (len : Nat) (hdr : Option Page) :
    Nat × Option Page := (len, hdr)

/-- `max_comp_streams_show`: prints `num_online_cpus()`; the host's CPU
count is an input to the model. -/
def max_comp_streams_show (num_online_cpus : Nat) : Nat := num_online_cpus

/-- `max_comp_streams_store`: consumes the whole input and touches no
device state. -/
def max_comp_streams_store (_buf : List Nat) (len : Nat) (hdr : Option Page) :
    Nat × Option Page := (len, hdr)

/-- A one-segment page-aligned bio: the shape every successful data
request has. -/
def pageBio (sector : Nat) (p : Page) (d : RW) : Bio :=
  { bi_sector := sector
    bi_size := PAGE_SIZE
    bi_vcnt := 1
    segments := [{ bv_page := p, bv_len := PAGE_SIZE, bv_offset := 0 }]
    dir := d }

/-! ## Helper lemmas -/

theorem land_seven (x : Nat) : x &&& 7 = x % 8 :=
  Nat.and_pow_two_sub_one_eq_mod x 3

theorem land_4095 (x : Nat) : x &&& 4095 = x % 4096 :=
  Nat.and_pow_two_sub_one_eq_mod x 12

theorem disksize_sectors : vbswap_disksize >>> SECTOR_SHIFT = 12582912 := by
  decide

/-- The validator characterised through arithmetic: a request is valid
iff the start sector is below the capacity in sectors, the start sector
is a multiple of 8 and the byte size is a multiple of 4096. -/
theorem valid_iff (bio : Bio) :
    vbswap_valid_io_request bio = true ↔
      bio.bi_sector < 12582912 ∧ bio.bi_sector % 8 = 0 ∧
        bio.bi_size % 4096 = 0 := by
  have hs : VBSWAP_SECTOR_PER_LOGICAL_BLOCK - 1 = 7 := by decide
  have hb : VBSWAP_LOGICAL_BLOCK_SIZE - 1 = 4095 := by decide
  unfold vbswap_valid_io_request
  rw [disksize_sectors, hs, hb, land_seven, land_4095]
  split
  · rename_i h
    simp only [Bool.false_eq_true, false_iff]
    omega
  · rename_i h
    push_neg at h
    simp only [true_iff]
    omega

/-! ## Claims -/

/-- C5: the bounds-and-alignment validator rejects a request — and the
whole request then fails with an I/O error with no header-state change —
iff the start sector is ≥ the capacity in sectors (12582912, from a
6×1024³-byte capacity and 512-byte sectors), or the start sector is not
a multiple of 8, or the byte length is not a multiple of 4096. -/
theorem c5_bounds_alignment_validation (bio : Bio) :
    (vbswap_valid_io_request bio = false ↔
      bio.bi_sector ≥ 12582912 ∨ bio.bi_sector % 8 ≠ 0 ∨
        bio.bi_size % 4096 ≠ 0) ∧
    vbswap_disksize = 6 * 1024 ^ 3 ∧
    vbswap_disksize >>> SECTOR_SHIFT = 12582912 ∧
    (vbswap_valid_io_request bio = false →
      ∀ rw allocOk hdr,
        __vbswap_make_request bio rw allocOk hdr =
          (.ioError, bio.segments.map Bvec.bv_page, hdr)) := by
  refine ⟨?_, by decide, disksize_sectors, ?_⟩
  · rw [← Bool.not_eq_true, valid_iff]
    constructor
    · intro h
      by_contra hc
      push_neg at hc
      exact h ⟨by omega, by omega, by omega⟩
    · intro h hc
      omega
  · intro h rw allocOk hdr
    unfold __vbswap_make_request
    rw [h]
    simp

/-- C5 witness: a read whose start sector equals the capacity in
sectors exactly is rejected by the validator and fails with an I/O
error, leaving the header state unchanged. -/
theorem c5_bounds_alignment_validation_witness :
    vbswap_valid_io_request
        { bi_sector := 12582912, bi_size := 4096, bi_vcnt := 0,
          segments := [], dir := .read } = false ∧
      __vbswap_make_request
        { bi_sector := 12582912, bi_size := 4096, bi_vcnt := 0,
          segments := [], dir := .read } .read true none =
        (.ioError, [], none) := by
  have h := c5_bounds_alignment_validation
    { bi_sector := 12582912, bi_size := 4096, bi_vcnt := 0,
      segments := [], dir := .read }
  have hv : vbswap_valid_io_request
      { bi_sector := 12582912, bi_size := 4096, bi_vcnt := 0,
        segments := [], dir := .read } = false :=
    h.1.mpr (Or.inl (by decide))
  exact ⟨hv, h.2.2.2 hv .read true none⟩

/-- C2: a request from the kernel's internal paging context
(`PF_KTHREAD`) fails immediately with an I/O error — no page contents
and no header state change, whatever the request's parameters — while a
request from an ordinary caller context is handed unchanged to the
validation/dispatch path. -/
theorem c2_origin_rejection (bio : Bio) (allocOk : Bool) (hdr : Option Page) :
    vbswap_make_request true bio allocOk hdr =
      (.ioError, bio.segments.map Bvec.bv_page, hdr) ∧
    vbswap_make_request false bio allocOk hdr =
      __vbswap_make_request bio bio.dir allocOk hdr := by
  constructor <;> simp [vbswap_make_request]

/-- Running the segment loop on a single well-shaped segment reduces to
one page operation. -/
theorem runSegments_single (d : RW) (allocOk : Bool) (idx : Nat)
    (hdr : Option Page) (p : Page) :
    runSegments d allocOk [⟨p, PAGE_SIZE, 0⟩] idx hdr =
      match vbswap_bvec_rw ⟨p, PAGE_SIZE, 0⟩ idx d allocOk hdr with
      | none => (.crash, [p], hdr)
      | some (ret, q, hdr') =>
        if ret < 0 then (.ioError, [q], hdr') else (.ok, [q], hdr') := by
  unfold runSegments
  simp only [ne_eq, not_true_eq_false, false_or, if_false]
  cases hm : vbswap_bvec_rw ⟨p, PAGE_SIZE, 0⟩ idx d allocOk hdr with
  | none => simp
  | some v =>
    obtain ⟨ret, q, hdr'⟩ := v
    by_cases hr : ret < 0
    · simp [hr]
    · simp [hr, runSegments]

/-- A one-segment page-aligned request from an ordinary caller, below
capacity, reduces to its single page operation at index
`sector >>> 3`. -/
theorem make_request_pageBio (sector : Nat) (p : Page) (d : RW)
    (allocOk : Bool) (hdr : Option Page)
    (hsec : sector < 12582912) (hmod : sector % 8 = 0) :
    vbswap_make_request false (pageBio sector p d) allocOk hdr =
      match vbswap_bvec_rw ⟨p, PAGE_SIZE, 0⟩ (sector >>> SECTORS_PER_PAGE_SHIFT)
          d allocOk hdr with
      | none => (.crash, [p], hdr)
      | some (ret, q, hdr') =>
        if ret < 0 then (.ioError, [q], hdr') else (.ok, [q], hdr') := by
  have hvalid : vbswap_valid_io_request (pageBio sector p d) = true := by
    rw [valid_iff]
    refine ⟨hsec, hmod, ?_⟩
    show PAGE_SIZE % 4096 = 0
    decide
  have hoff : sector &&& (SECTORS_PER_PAGE - 1) = 0 := by
    have h8 : SECTORS_PER_PAGE - 1 = 7 := by decide
    rw [h8, land_seven, hmod]
  unfold vbswap_make_request __vbswap_make_request
  rw [hvalid]
  simp only [Bool.true_eq_false, if_false, pageBio]
  rw [hoff]
  have hz : (0 : Nat) <<< SECTOR_SHIFT = 0 := by decide
  rw [hz]
  simp only [ne_eq, not_true_eq_false, if_false, gt_iff_lt, lt_irrefl,
    lt_self_iff_false]
  exact runSegments_single d allocOk _ hdr p

/-- A write via the bvec layer at page index 0 with a successful
allocation always succeeds and retains the first page of the source. -/
theorem bvec_write_zero (bvec : Bvec) (hdr : Option Page) :
    vbswap_bvec_write bvec 0 true hdr =
      some (0, some (bvec.bv_page.take PAGE_SIZE)) := by
  cases hdr <;> simp [vbswap_bvec_write, alloc_page]

/-- C1: from any header state, a valid full-page write of bytes `B` to
page index 0 succeeds and retains `B`; the immediately following read of
page index 0 returns exactly `B` and empties the header state; a second
consecutive read of page index 0 returns one full page of zero bytes. -/
theorem c1_one_shot_header (hdr : Option Page) (B U1 U2 : Page)
    (hB : B.length = PAGE_SIZE) (hU1 : U1.length = PAGE_SIZE)
    (hU2 : U2.length = PAGE_SIZE) :
    vbswap_make_request false (pageBio 0 B .write) true hdr =
      (.ok, [B], some B) ∧
    vbswap_make_request false (pageBio 0 U1 .read) true (some B) =
      (.ok, [B], none) ∧
    vbswap_make_request false (pageBio 0 U2 .read) true none =
      (.ok, [List.replicate PAGE_SIZE 0], none) := by
  have h0 : (0 : Nat) >>> SECTORS_PER_PAGE_SHIFT = 0 := by decide
  have htake : B.take PAGE_SIZE = B := by rw [← hB, List.take_length]
  have hdropU1 : U1.drop PAGE_SIZE = [] := by rw [← hU1, List.drop_length]
  have hdropU2 : U2.drop PAGE_SIZE = [] := by rw [← hU2, List.drop_length]
  refine ⟨?_, ?_, ?_⟩
  · rw [make_request_pageBio 0 B .write true hdr (by omega) (by omega), h0]
    simp [vbswap_bvec_rw, bvec_write_zero, htake]
  · rw [make_request_pageBio 0 U1 .read true (some B) (by omega) (by omega),
      h0]
    simp [vbswap_bvec_rw, vbswap_bvec_read, writeBytes, htake, hB, hdropU1]
  · rw [make_request_pageBio 0 U2 .read true none (by omega) (by omega), h0]
    simp [vbswap_bvec_rw, vbswap_bvec_read, writeBytes, hdropU2]

/-- C1 witness: the one-shot scenario at a concrete page of 0xAA
bytes. -/
theorem c1_one_shot_header_witness :
    (List.replicate PAGE_SIZE 170).length = PAGE_SIZE ∧
    (List.replicate PAGE_SIZE 1).length = PAGE_SIZE ∧
    (List.replicate PAGE_SIZE 2).length = PAGE_SIZE ∧
    (vbswap_make_request false (pageBio 0 (List.replicate PAGE_SIZE 170) .write)
        true none =
      (.ok, [List.replicate PAGE_SIZE 170], some (List.replicate PAGE_SIZE 170)) ∧
    vbswap_make_request false (pageBio 0 (List.replicate PAGE_SIZE 1) .read)
        true (some (List.replicate PAGE_SIZE 170)) =
      (.ok, [List.replicate PAGE_SIZE 170], none) ∧
    vbswap_make_request false (pageBio 0 (List.replicate PAGE_SIZE 2) .read)
        true none =
      (.ok, [List.replicate PAGE_SIZE 0], none)) :=
  ⟨by simp, by simp, by simp,
    c1_one_shot_header none (List.replicate PAGE_SIZE 170)
      (List.replicate PAGE_SIZE 1) (List.replicate PAGE_SIZE 2)
      (by simp) (by simp) (by simp)⟩

/-- C3: a valid read addressed at a page index other than 0 — or at
page index 0 while the header state is Empty — returns one full page of
zero bytes regardless of the current header state, and leaves the
header state unchanged. -/
theorem c3_nonheader_zero_fill (sector : Nat) (U : Page) (hdr : Option Page)
    (allocOk : Bool) (hsec : sector < 12582912) (hmod : sector % 8 = 0)
    (hU : U.length = PAGE_SIZE)
    (hcase : sector >>> SECTORS_PER_PAGE_SHIFT ≠ 0 ∨ hdr = none) :
    vbswap_make_request false (pageBio sector U .read) allocOk hdr =
      (.ok, [List.replicate PAGE_SIZE 0], hdr) := by
  have hdrop : U.drop PAGE_SIZE = [] := by rw [← hU, List.drop_length]
  rw [make_request_pageBio sector U .read allocOk hdr hsec hmod]
  rcases hcase with h | h
  · cases hdr with
    | none => simp [vbswap_bvec_rw, vbswap_bvec_read, writeBytes, hdrop]
    | some p => simp [vbswap_bvec_rw, vbswap_bvec_read, h, writeBytes, hdrop]
  · subst h
    simp [vbswap_bvec_rw, vbswap_bvec_read, writeBytes, hdrop]

/-- C3 witness: a read at sector 40 (page index 5) while the header
holds a page of 0xAA bytes returns a page of zeros and leaves the
header untouched. -/
theorem c3_nonheader_zero_fill_witness :
    (40 : Nat) < 12582912 ∧ (40 : Nat) % 8 = 0 ∧
    (List.replicate PAGE_SIZE 7).length = PAGE_SIZE ∧
    ((40 : Nat) >>> SECTORS_PER_PAGE_SHIFT ≠ 0 ∨
      (some (List.replicate PAGE_SIZE 170) : Option Page) = none) ∧
    vbswap_make_request false (pageBio 40 (List.replicate PAGE_SIZE 7) .read)
        true (some (List.replicate PAGE_SIZE 170)) =
      (.ok, [List.replicate PAGE_SIZE 0], some (List.replicate PAGE_SIZE 170)) :=
  ⟨by decide, by decide, by simp, Or.inl (by decide),
    c3_nonheader_zero_fill 40 (List.replicate PAGE_SIZE 7)
      (some (List.replicate PAGE_SIZE 170)) true (by decide) (by decide)
      (by simp) (Or.inl (by decide))⟩

/-- C4: a write addressed at a page index other than 0 fails with an
I/O error and leaves the header state — and the request's page
contents — exactly as they were. -/
theorem c4_write_restriction (sector : Nat) (p : Page) (hdr : Option Page)
    (allocOk : Bool) (hsec : sector < 12582912) (hmod : sector % 8 = 0)
    (hnz : sector >>> SECTORS_PER_PAGE_SHIFT ≠ 0) :
    vbswap_make_request false (pageBio sector p .write) allocOk hdr =
      (.ioError, [p], hdr) := by
  rw [make_request_pageBio sector p .write allocOk hdr hsec hmod]
  simp [vbswap_bvec_rw, vbswap_bvec_write, hnz, EIO]

/-- C4 witness: a write at sector 8 (page index 1) while the header
holds a page fails with an I/O error and the retained page is
unchanged. -/
theorem c4_write_restriction_witness :
    (8 : Nat) < 12582912 ∧ (8 : Nat) % 8 = 0 ∧
    (8 : Nat) >>> SECTORS_PER_PAGE_SHIFT ≠ 0 ∧
    vbswap_make_request false (pageBio 8 (List.replicate PAGE_SIZE 3) .write)
        true (some (List.replicate PAGE_SIZE 170)) =
      (.ioError, [List.replicate PAGE_SIZE 3],
        some (List.replicate PAGE_SIZE 170)) :=
  ⟨by decide, by decide, by decide,
    c4_write_restriction 8 (List.replicate PAGE_SIZE 3)
      (some (List.replicate PAGE_SIZE 170)) true (by decide) (by decide)
      (by decide)⟩

/-- C6 counterexample: a request containing zero segments — so not
exactly one segment — with byte size 0 passes every check and completes
successfully instead of failing with an I/O error. -/
theorem c6_counterexample :
    ({ bi_sector := 0, bi_size := 0, bi_vcnt := 0, segments := [],
       dir := .read } : Bio).segments.length ≠ 1 ∧
    vbswap_make_request false
        { bi_sector := 0, bi_size := 0, bi_vcnt := 0, segments := [],
          dir := .read } true none = (.ok, [], none) := by
  exact ⟨by decide, by decide⟩

/-- C6 (amended): every request whose total byte length exceeds one
page, or that contains more than one segment, or one of whose segments
has a length other than one page or a nonzero intra-page offset, fails
with an I/O error with the header state unchanged and its page contents
untouched, before any page operation runs. -/
theorem c6_segment_shape (bio : Bio) (rw : RW) (allocOk : Bool)
    (hdr : Option Page) (hwf : bio.bi_vcnt = bio.segments.length)
    (hbad : bio.bi_size > PAGE_SIZE ∨ 1 < bio.segments.length ∨
      ∃ seg ∈ bio.segments, seg.bv_len ≠ PAGE_SIZE ∨ seg.bv_offset ≠ 0) :
    __vbswap_make_request bio rw allocOk hdr =
      (.ioError, bio.segments.map Bvec.bv_page, hdr) := by
  unfold __vbswap_make_request
  dsimp only
  split
  · rfl
  · split
    · rfl
    · split
      · rfl
      · split
        · rfl
        · rename_i hvalid hofs hsize hvcnt
          rcases hbad with h | h | ⟨seg, hmem, hseg⟩
          · exact absurd h hsize
          · exfalso; omega
          · rcases hsegs : bio.segments with _ | ⟨a, _ | ⟨b, tl⟩⟩
            · rw [hsegs] at hmem
              exact absurd hmem (List.not_mem_nil seg)
            · rw [hsegs] at hmem
              have hsa : seg = a := by simpa using hmem
              subst hsa
              unfold runSegments
              rw [if_pos hseg]
              simp
            · exfalso
              rw [hsegs] at hwf
              simp at hwf
              omega

/-- C6 witness: a one-segment request whose segment is only 512 bytes
long fails with an I/O error and leaves the header state unchanged. -/
theorem c6_segment_shape_witness :
    ({ bi_sector := 0, bi_size := 4096, bi_vcnt := 1,
       segments := [{ bv_page := [5], bv_len := 512, bv_offset := 0 }],
       dir := .write } : Bio).bi_vcnt =
      ({ bi_sector := 0, bi_size := 4096, bi_vcnt := 1,
         segments := [{ bv_page := [5], bv_len := 512, bv_offset := 0 }],
         dir := .write } : Bio).segments.length ∧
    __vbswap_make_request
        { bi_sector := 0, bi_size := 4096, bi_vcnt := 1,
          segments := [{ bv_page := [5], bv_len := 512, bv_offset := 0 }],
          dir := .write } .write true (some [9]) =
      (.ioError, [[5]], some [9]) :=
  ⟨rfl,
    c6_segment_shape
      { bi_sector := 0, bi_size := 4096, bi_vcnt := 1,
        segments := [{ bv_page := [5], bv_len := 512, bv_offset := 0 }],
        dir := .write } .write true (some [9]) rfl
      (Or.inr (Or.inr ⟨{ bv_page := [5], bv_len := 512, bv_offset := 0 },
        by simp, Or.inl (by decide)⟩))⟩

/-- C7: the code does not check the result of `alloc_page`.  A valid
full-page write to page index 0 in the Empty header state whose
allocation fails dereferences the NULL page pointer (crash) instead of
failing the request with an I/O error. -/
theorem c7_alloc_failure_crash :
    vbswap_make_request false (pageBio 0 (List.replicate PAGE_SIZE 170) .write)
        false none =
      (.crash, [List.replicate PAGE_SIZE 170], none) ∧
    (ReqResult.crash ≠ ReqResult.ioError) := by
  constructor
  · have h0 : (0 : Nat) >>> SECTORS_PER_PAGE_SHIFT = 0 := by decide
    rw [make_request_pageBio 0 (List.replicate PAGE_SIZE 170) .write false none
        (by omega) (by omega), h0]
    simp [vbswap_bvec_rw, vbswap_bvec_write, alloc_page]
  · decide

/-- The bvec-level read operation always returns 0 (success). -/
theorem vbswap_bvec_read_ret (bvec : Bvec) (idx : Nat) (hdr : Option Page) :
    (vbswap_bvec_read bvec idx hdr).1 = 0 := by
  cases hdr with
  | none => rfl
  | some p => by_cases hi : idx = 0 <;> simp [vbswap_bvec_read, hi]

/-- The segment loop on a read request with well-shaped segments always
completes with `ok`, for every page index and header state. -/
theorem runSegments_read_ok (allocOk : Bool) (segs : List Bvec) :
    ∀ idx hdr, (∀ seg ∈ segs, seg.bv_len = PAGE_SIZE ∧ seg.bv_offset = 0) →
      (runSegments .read allocOk segs idx hdr).1 = .ok := by
  induction segs with
  | nil => intro idx hdr _; rfl
  | cons a tl ih =>
    intro idx hdr h
    have ha := h a (by simp)
    unfold runSegments
    rw [if_neg (by simp [ha.1, ha.2])]
    simp only [vbswap_bvec_rw]
    rcases hr : vbswap_bvec_read a idx hdr with ⟨ret, p, hdr'⟩
    have hret : ret = 0 := by
      have := vbswap_bvec_read_ret a idx hdr
      rw [hr] at this
      simpa using this
    subst hret
    simp only [show ¬ ((0 : Int) < 0) by omega, if_false]
    rcases hrec : runSegments .read allocOk tl (idx + 1) hdr' with ⟨res, ps, hdr2⟩
    have hres : res = .ok := by
      have := ih (idx + 1) hdr' (fun s hs => h s (by simp [hs]))
      rw [hrec] at this
      simpa using this
    simp [hres]

/-- C9: bvec-level reads are infallible (they return 0 for every page
index and header state), so a read request from an ordinary caller that
passes bounds/alignment validation, the size, segment-count and
segment-shape checks always completes successfully; the dispatcher's
per-page-failure branch is unreachable on the read path. -/
theorem c9_reads_infallible (bio : Bio) (allocOk : Bool) (hdr : Option Page)
    (hdir : bio.dir = .read) (hwf : bio.bi_vcnt = bio.segments.length)
    (hvalid : vbswap_valid_io_request bio = true)
    (hsize : bio.bi_size ≤ PAGE_SIZE) (hvcnt : bio.bi_vcnt ≤ 1)
    (hsegs : ∀ seg ∈ bio.segments,
      seg.bv_len = PAGE_SIZE ∧ seg.bv_offset = 0) :
    (vbswap_make_request false bio allocOk hdr).1 = .ok ∧
    ∀ bvec idx h, (vbswap_bvec_read bvec idx h).1 = 0 := by
  refine ⟨?_, fun bvec idx h => vbswap_bvec_read_ret bvec idx h⟩
  have hofs : (bio.bi_sector &&& (SECTORS_PER_PAGE - 1)) <<< SECTOR_SHIFT = 0 := by
    have h8 : SECTORS_PER_PAGE - 1 = 7 := by decide
    have hmod := ((valid_iff bio).mp hvalid).2.1
    rw [h8, land_seven, hmod]
    decide
  unfold vbswap_make_request __vbswap_make_request
  rw [hvalid]
  dsimp only
  rw [hofs]
  simp only [Bool.true_eq_false, if_false, ne_eq, not_true_eq_false,
    not_false_eq_true, if_neg (show ¬ (0 : Nat) ≠ 0 from by omega),
    if_neg (show ¬ bio.bi_size > PAGE_SIZE from by omega),
    if_neg (show ¬ bio.bi_vcnt > 1 from by omega)]
  rw [hdir]
  exact runSegments_read_ok allocOk bio.segments _ hdr hsegs

/-- C9 witness: a read at sector 40 in the Empty state completes
successfully even with a failing allocator. -/
theorem c9_reads_infallible_witness :
    (pageBio 40 (List.replicate PAGE_SIZE 7) .read).dir = .read ∧
    vbswap_valid_io_request (pageBio 40 (List.replicate PAGE_SIZE 7) .read) =
      true ∧
    (vbswap_make_request false (pageBio 40 (List.replicate PAGE_SIZE 7) .read)
        false none).1 = .ok :=
  ⟨rfl, by decide,
    (c9_reads_infallible (pageBio 40 (List.replicate PAGE_SIZE 7) .read)
      false none rfl rfl (by decide) (by decide) (by decide)
      (by intro seg hs; simp [pageBio] at hs; simp [hs])).1⟩

/-- C10: the capacity attribute reports the configured 6×1024³-byte
capacity and the parallelism-hint attribute reports the host's online
CPU count; both store handlers report the full input length consumed
and change no device state. -/
theorem c10_admin_attributes (n len : Nat) (buf : List Nat)
    (hdr : Option Page) :
    disksize_show = 6 * 1024 ^ 3 ∧
    max_comp_streams_show n = n ∧
    disksize_store buf len hdr = (len, hdr) ∧
    max_comp_streams_store buf len hdr = (len, hdr) :=
  ⟨by decide, rfl, rfl, rfl⟩

/-- C8: over one arbitrary request, the header state either stays
unchanged, or becomes Holding the written page via a successful write
addressed at page index 0, or goes from Holding to Empty via a read
addressed at page index 0; every other operation (rejected origin,
failed validation, non-zero page index, reads while Empty, failed
writes) leaves it unchanged.  Since the state is the single retained
page consumed only by index-0 reads, no page other than index 0 ever
has retained content. -/
theorem c8_header_transitions (pf : Bool) (bio : Bio) (allocOk : Bool)
    (hdr : Option Page) (r : ReqResult × List Page × Option Page)
    (hwf : bio.bi_vcnt = bio.segments.length)
    (hr : vbswap_make_request pf bio allocOk hdr = r) :
    r.2.2 = hdr ∨
    (bio.dir = .write ∧ bio.bi_sector >>> SECTORS_PER_PAGE_SHIFT = 0 ∧
      r.1 = .ok ∧
      ∃ seg ∈ bio.segments, r.2.2 = some (seg.bv_page.take PAGE_SIZE)) ∨
    (bio.dir = .read ∧ bio.bi_sector >>> SECTORS_PER_PAGE_SHIFT = 0 ∧
      hdr ≠ none ∧ r.2.2 = none ∧ r.1 = .ok) := by
  subst hr
  unfold vbswap_make_request
  cases pf with
  | true => left; simp
  | false =>
    simp only [Bool.false_eq_true, if_false]
    unfold __vbswap_make_request
    dsimp only
    split
    · left; rfl
    · split
      · left; rfl
      · split
        · left; rfl
        · split
          · left; rfl
          · rename_i hvalid hofs hsize hvcnt
            rcases hsegs : bio.segments with _ | ⟨a, _ | ⟨b, tl⟩⟩
            · left
              simp [runSegments]
            · by_cases hshape : a.bv_len ≠ PAGE_SIZE ∨ a.bv_offset ≠ 0
              · left
                unfold runSegments
                rw [if_pos hshape]
              · unfold runSegments
                rw [if_neg hshape]
                cases hd : bio.dir with
                | read =>
                  simp only [vbswap_bvec_rw]
                  cases hdr with
                  | none =>
                    left
                    simp [vbswap_bvec_read, runSegments]
                  | some hpage =>
                    by_cases hidx :
                        bio.bi_sector >>> SECTORS_PER_PAGE_SHIFT = 0
                    · right; right
                      refine ⟨by trivial, hidx, by simp, ?_, ?_⟩ <;>
                        simp [vbswap_bvec_read, hidx, runSegments]
                    · left
                      simp [vbswap_bvec_read, hidx, runSegments]
                | write =>
                  simp only [vbswap_bvec_rw]
                  by_cases hidx : bio.bi_sector >>> SECTORS_PER_PAGE_SHIFT = 0
                  · cases hdr with
                    | some hpage =>
                      right; left
                      refine ⟨by trivial, hidx, ?_, a, by simp, ?_⟩ <;>
                        simp [vbswap_bvec_write, hidx, runSegments, EIO]
                    | none =>
                      cases allocOk with
                      | true =>
                        right; left
                        refine ⟨by trivial, hidx, ?_, a, by simp, ?_⟩ <;>
                          simp [vbswap_bvec_write, hidx, runSegments,
                            alloc_page, EIO]
                      | false =>
                        left
                        simp [vbswap_bvec_write, hidx, alloc_page]
                  · left
                    simp [vbswap_bvec_write, hidx, EIO, runSegments]
            · exfalso
              rw [hsegs] at hwf
              simp at hwf
              omega

/-- C8 witness: an origin-rejected request leaves the header state
unchanged (first disjunct of the transition characterisation). -/
theorem c8_header_transitions_witness :
    (pageBio 0 [] .read).bi_vcnt = (pageBio 0 [] .read).segments.length ∧
    vbswap_make_request true (pageBio 0 [] .read) true none =
      (.ioError, [[]], none) ∧
    ((none : Option Page) = none ∨
      (RW.read = RW.write ∧ (0 : Nat) >>> SECTORS_PER_PAGE_SHIFT = 0 ∧
        ReqResult.ioError = ReqResult.ok ∧
        ∃ seg ∈ (pageBio 0 [] .read).segments,
          (none : Option Page) = some (seg.bv_page.take PAGE_SIZE)) ∨
      (RW.read = RW.read ∧ (0 : Nat) >>> SECTORS_PER_PAGE_SHIFT = 0 ∧
        (none : Option Page) ≠ none ∧ (none : Option Page) = none ∧
        ReqResult.ioError = ReqResult.ok)) :=
  ⟨rfl, rfl,
    c8_header_transitions true (pageBio 0 [] .read) true none
      (.ioError, [[]], none) rfl rfl⟩

end Vbswap
